import Mathlib

/-!
Verification development for the csender repository: a shallow embedding of
the event-synthesis and pacing engine of the syslog flood generator, together
with theorems settling the claims of the specification against the code.

The repository contains three variants of the program:
* variant v1: the minimal catalog sender (src/main.c, first part) — stateless
  timestamp, catalog body, no loop termination on clock failure;
* variant p0: src/unnamed/part_000 — catalog body, clock failure breaks the
  loop, unpadded microseconds;
* the full variant (src/main.c, second part) — boundary detection, length
  option, statistics, space-padded microseconds.

Machine integers of the C source (int, long, ssize_t, size_t) are modelled as
Int or Nat; all values exercised by the claims stay far from any overflow
boundary (lengths bounded by 1024, counters incremented by one per loop
iteration), so no modular reduction is applied.
-/

/-! ### Constants of the source -/

def DATETIME_LENGTH : Nat := 28
def SYSLOG_MSG_MAXLENGTH : Nat := 1024
def SYSLOG_HEADER_LENGTH : Nat := 62
def STATISTICS_INTERVAL : Int := 1
def RANDOM_EVENT_MIN_LENGTH : Nat := 100
def RANDOM_EVENT_MAX_LENGTH : Nat := 225

/-! ### printf-style decimal rendering

The C code renders numbers via printf conversions (%ld, %.6ld, %6ld, %4ld,
%10ld) and strftime two-digit fields.  We embed decimal rendering with an
explicit fuel-structural definition so every use reduces in the kernel. -/

/-- Decimal digits of a natural number, most significant first, accumulated
into acc.  The fuel argument only bounds recursion depth; fuel = n + 1 always
suffices since the value shrinks by a factor of 10 each step. -/
def natDecGo : Nat → Nat → List Char → List Char
  | 0, _, acc => acc
  | fuel + 1, n, acc =>
      let acc' := Char.ofNat (48 + n % 10) :: acc
      if n < 10 then acc' else natDecGo fuel (n / 10) acc'

/-- Decimal rendering of a natural number, as printf renders a nonnegative
integer. -/
def natDec (n : Nat) : String := String.mk (natDecGo (n + 1) n [])

/-- Decimal rendering of a C long, as printf %ld. -/
def printf_ld (i : Int) : String :=
  if i < 0 then "-" ++ natDec i.natAbs else natDec i.toNat

/-- Left-pad a string with copies of a character up to a given width, as the
printf width (space) and precision (zero) fields pad a shorter rendering. -/
def padLeftWith (c : Char) (w : Nat) (s : String) : String :=
  String.mk (List.replicate (w - s.length) c) ++ s

/-- Two-digit zero-padded field, as strftime renders %m, %d, %H, %M, %S. -/
def pad2 (n : Nat) : String := padLeftWith '0' 2 (natDec n)

/-- C long division, which truncates toward zero.  The only division in the
program is events/second in the statistics line, where both operands are
nonnegative, so truncation direction never actually matters. -/
def c_long_div (a b : Int) : Int := Int.tdiv a b

/-! ### Timestamp generation (timestamp_rfc3339) -/

/-- The broken-down time produced by localtime_r.  Field order follows struct
tm; tm_year counts years since 1900 and tm_mon months since January, as in C.
localtime_r always produces fields in their documented ranges, hence Nat. -/
structure Tm where
  tm_sec : Nat
  tm_min : Nat
  tm_hour : Nat
  tm_mday : Nat
  tm_mon : Nat
  tm_year : Nat
deriving DecidableEq, Repr

/-- Result of one clock_gettime + localtime_r observation: either a failure of
either call, or the timespec (tv_sec, tv_nsec) together with the broken-down
local time localtime_r derives from tv_sec. -/
inductive ClockResult where
  | fail
  | ok (tv_sec : Int) (tv_nsec : Nat) (t : Tm)
deriving DecidableEq, Repr

/-- strftime with the format "%FT%T." (that is, %Y-%m-%dT%H:%M:%S.). -/
def strftime_FTT (t : Tm) : String :=
  natDec (1900 + t.tm_year) ++ "-" ++ pad2 (t.tm_mon + 1) ++ "-" ++ pad2 t.tm_mday ++
  "T" ++ pad2 t.tm_hour ++ ":" ++ pad2 t.tm_min ++ ":" ++ pad2 t.tm_sec ++ "."

/-- strftime buffer behaviour: if the formatted text plus its terminator fits
in the buffer it is stored and its character count returned, otherwise the
call returns 0 (contents then unspecified; modelled as empty). -/
def strftime_buffer (size : Nat) (s : String) : String × Nat :=
  if s.length < size then (s, s.length) else ("", 0)

/-- snprintf buffer behaviour: at most size - 1 characters are written. -/
def snprintf_cap (size : Nat) (s : String) : String :=
  String.mk (s.data.take (size - 1))

/-- Microsecond field of the minimal variant: snprintf "%.6ldZ" (precision 6,
zero-padded digits). -/
def micros_field_v1 (micros : Nat) : String := padLeftWith '0' 6 (natDec micros) ++ "Z"

/-- Microsecond field of the full variant: snprintf "%6ldZ" (width 6,
space-padded). -/
def micros_field_full (micros : Nat) : String := padLeftWith ' ' 6 (natDec micros) ++ "Z"

/-- Microsecond field of part_000: snprintf "%ldZ" (no padding). -/
def micros_field_p0 (micros : Nat) : String := natDec micros ++ "Z"

/-- Text assembled by timestamp_rfc3339: strftime "%FT%T." into the 28-byte
buffer, then the microsecond value tv_nsec / 1000 appended with snprintf into
the remaining space. -/
def timestamp_text_core (micros_field : Nat → String) (t : Tm) (tv_nsec : Nat) : String :=
  let fr := strftime_buffer DATETIME_LENGTH (strftime_FTT t)
  fr.1 ++ snprintf_cap (DATETIME_LENGTH - fr.2) (micros_field (tv_nsec / 1000))

/-- Timestamp text of the minimal variant (format "%.6ldZ"). -/
def timestamp_text_v1 (t : Tm) (tv_nsec : Nat) : String :=
  timestamp_text_core micros_field_v1 t tv_nsec

/-- Timestamp text of the full variant (format "%6ldZ"). -/
def timestamp_text_full (t : Tm) (tv_nsec : Nat) : String :=
  timestamp_text_core micros_field_full t tv_nsec

/-- Timestamp text of part_000 (format "%ldZ"). -/
def timestamp_text_p0 (t : Tm) (tv_nsec : Nat) : String :=
  timestamp_text_core micros_field_p0 t tv_nsec

/-- Modelled from the spec: the timestamp text the specification describes,
"%FT%T." followed by the microsecond value as exactly 6 zero-padded digits and
a literal Z.  Kept separate from the three source-derived texts above so the
description given by the spec can be compared against each of them. -/
def spec_timestamp_text (t : Tm) (tv_nsec : Nat) : String :=
  strftime_FTT t ++ padLeftWith '0' 6 (natDec (tv_nsec / 1000)) ++ "Z"

/-- One call of timestamp_rfc3339 of the full variant: consumes one clock
observation and the static last_call_second (initially -1), produces the
formatted text and the second-changed flag, and updates the static.  On
failure the output flag is set to false but the caller sees the -1 return
(modelled as none) and the static is unchanged. -/
def timestamp_rfc3339_step (last_call_second : Int) (input : ClockResult) :
    Option (String × Bool) × Int :=
  match input with
  | ClockResult.fail => (none, last_call_second)
  | ClockResult.ok _ tv_nsec t =>
      let text := timestamp_text_full t tv_nsec
      let second_changed :=
        decide (¬ last_call_second = (t.tm_sec : Int)) && decide (0 ≤ last_call_second)
      (some (text, second_changed), (t.tm_sec : Int))

/-- State of the static last_call_second after a sequence of calls starting
from a given value. -/
def runTimestampState (st : Int) : List ClockResult → Int
  | [] => st
  | c :: rest => runTimestampState (timestamp_rfc3339_step st c).2 rest

/-- tm_sec of the most recent successful observation in a call sequence, if
any. -/
def lastOkSec : List ClockResult → Option Nat
  | [] => none
  | c :: rest =>
      match lastOkSec rest with
      | some s => some s
      | none =>
          match c with
          | ClockResult.ok _ _ t => some t.tm_sec
          | ClockResult.fail => none

/-! ### Event synthesis -/

/-- The fixed catalog of 8 literal log-line bodies, shared verbatim by the
minimal variant (local array events) and part_000 (gc_event_list). -/
def events_catalog : List String :=
  [ "Teardown UDP connection for faddr 80.58.4.34/37074 gaddr 10.0.0.187/53 laddr 192.168.0.2/53",
    "192.168.0.2 Accessed URL 212.227.109.224:/scriptlib/ClientStdScripts.js",
    "Built outbound TCP connection 152083 for faddr 212.227.109.224/80 gaddr 10.0.0.187/56684 laddr 192.168.0.2/56684",
    "Teardown TCP connection 151957 faddr 212.227.109.224/80 gaddr 10.0.0.187/56613 laddr 192.168.0.2/56613 duration 0:04:56 bytes 11069 (TCP Reset-I)",
    "Deny TCP (no connection) from 192.168.0.2/2799 to 192.168.202.1/2244 flags SYN ACK on interface inside",
    "Built UDP connection for faddr 211.9.32.235/32770 gaddr 10.0.0.187/53 laddr 192.168.0.2/53",
    "Authen Session End: user '', sid 1, elapsed 313 seconds",
    "Deny icmp src outside:Some-Cisco dst inside:10.0.0.187 (type 3, code 1) by access-group \"outside_access_in\"" ]

/-- The syslog header prefix shared by all variants:
"<13>" + timestamp + " localhost.localdomain my.app: ". -/
def syslogHeader (a_timestamp : String) : String :=
  "<13>" ++ a_timestamp ++ " localhost.localdomain my.app: "

/-- Catalog-mode message of the minimal variant and part_000: snprintf of the
header, a catalog entry selected by rand() % 8, and a newline, into the
1024-sized buffer (so at most 1023 characters are kept). -/
def catalog_event (a_timestamp : String) (rand_val : Nat) : String :=
  snprintf_cap SYSLOG_MSG_MAXLENGTH
    (syslogHeader a_timestamp ++ events_catalog.getD (rand_val % 8) "" ++ "\n")

/-- generate_event_body of the full variant.  rand_len and rand_char are the
two rand() draws (the first is consumed only when no length was provided).
The C body_length subtraction is on size_t; every caller passes either a
validated length of at least 64 or the random length of at least 100, so the
Nat subtraction coincides with the C value. -/
def generate_event_body (a_event_length : Nat) (rand_len rand_char : Nat) : String :=
  let len :=
    if a_event_length = 0 then
      RANDOM_EVENT_MIN_LENGTH +
        rand_len % (RANDOM_EVENT_MAX_LENGTH - RANDOM_EVENT_MIN_LENGTH + 1)
    else a_event_length
  let body_length := len - (SYSLOG_HEADER_LENGTH + 1)
  String.mk (List.replicate body_length (Char.ofNat (65 + rand_char % 25))) ++ "\n"

/-- generate_event of the full variant: sprintf of the header (unbounded, the
destination buffer holds 1025 bytes and every produced message is at most
1024 characters), then the body appended at its end; event_length = -1 selects
the random-in-range mode by passing 0.  The C cast (size_t)event_length is
applied only to values the option parser validated into [64, 1024], where it
agrees with Int.toNat. -/
def generate_event (a_timestamp : String) (event_length : Int) (rand_len rand_char : Nat) :
    String :=
  syslogHeader a_timestamp ++
    generate_event_body (if event_length = -1 then 0 else event_length.toNat) rand_len rand_char

/-! ### Configuration validation (process_argument_list, -l option) -/

/-- min_event_length(): the syslog header plus the trailing newline plus one
character. -/
def min_event_length : Nat := SYSLOG_HEADER_LENGTH + 1 + 1

/-- max_event_length(). -/
def max_event_length : Nat := SYSLOG_MSG_MAXLENGTH

/-- The -l case of process_argument_list: the parsed value is rejected (the
function prints "Invalid event length.", resets the field and returns false,
so main exits before any connection or send loop) exactly when it lies outside
[min_event_length, max_event_length]; otherwise it is stored. -/
def process_length_option (l : Int) : Option Int :=
  if l < (min_event_length : Int) || l > (max_event_length : Int) then none else some l

/-! ### Send loops -/

/-- Pacing state of send_events of the full variant, together with the
static of the timestamp generator. -/
structure FullState where
  last_call_second : Int
  num_second_changes : Int
  num_events_sent : Int
deriving DecidableEq, Repr

/-- State at entry of send_events of the full variant: the generator static
starts at -1, num_second_changes at -1, num_events_sent at 0. -/
def initialFullState : FullState := { last_call_second := -1, num_second_changes := -1, num_events_sent := 0 }

/-- Observable effects of one iteration of a send loop. -/
structure StepResult where
  state : FullState
  sent : Option String
  statLine : Option String
  msg : Option String
  stopped : Bool
deriving DecidableEq, Repr

/-- The boundary-crossing test of timestamp_rfc3339, applied to the stored
static and the current tm_sec:
(last_call_second != time.tm_sec) && (last_call_second >= 0). -/
def boundary_crossed (last_call_second : Int) (t : Tm) : Bool :=
  decide (¬ last_call_second = (t.tm_sec : Int)) && decide (0 ≤ last_call_second)

/-- The statistics line of the full variant:
printf("%4ld sec. %10ld events sent, avg: %ld events/sec\n", num_second_changes,
num_events_sent, num_events_sent / num_second_changes). -/
def statLineFull (num_second_changes num_events_sent : Int) : String :=
  padLeftWith ' ' 4 (printf_ld num_second_changes) ++ " sec. " ++
  padLeftWith ' ' 10 (printf_ld num_events_sent) ++ " events sent, avg: " ++
  printf_ld (c_long_div num_events_sent num_second_changes) ++ " events/sec\n"

/-- Modelled from the spec: a console line of the form
"<report#> <seconds-elapsed> events sent, avg: <events/sec> events/sec",
with the four quantities the specification lists rendered in that shape.
Kept separate from statLineFull (derived from the source printf) so the two
can be compared. -/
def statLineSpecFormat (report seconds events : Int) : String :=
  printf_ld report ++ " " ++ printf_ld seconds ++ " events sent, avg: " ++
  printf_ld (c_long_div events seconds) ++ " events/sec\n"

/-- One iteration of the send loop of the full variant: generate a timestamp (on
failure print the message and break); if the second changed increment
num_second_changes; once num_second_changes is nonnegative generate and send
one event and increment num_events_sent; if the second changed and
num_second_changes is a positive multiple of STATISTICS_INTERVAL print the
statistics line. -/
def send_events_full_step (event_length : Int) (st : FullState) (input : ClockResult)
    (rand_len rand_char : Nat) : StepResult :=
  match timestamp_rfc3339_step st.last_call_second input with
  | (none, last') =>
      { state := { st with last_call_second := last' },
        sent := none, statLine := none,
        msg := some "It was not possible to generate a new timestamp.\n",
        stopped := true }
  | (some (ts, second_changed), last') =>
      let n := if second_changed then st.num_second_changes + 1 else st.num_second_changes
      let doSend := decide (0 ≤ n)
      let e := if doSend then st.num_events_sent + 1 else st.num_events_sent
      let ev := if doSend then some (generate_event ts event_length rand_len rand_char) else none
      let stat :=
        if second_changed && decide (1 ≤ n) && decide (n % STATISTICS_INTERVAL = 0)
        then some (statLineFull n e) else none
      { state := { last_call_second := last', num_second_changes := n, num_events_sent := e },
        sent := ev, statLine := stat, msg := none, stopped := false }

/-- The send loop of the full variant run on a finite prefix of the (unbounded)
iteration inputs: each iteration consumes one clock observation and the two
rand() draws of event generation; the loop stops consuming at the first
iteration that breaks. -/
def runFull (event_length : Int) (st : FullState) :
    List (ClockResult × Nat × Nat) → FullState × List StepResult
  | [] => (st, [])
  | (input, rand_len, rand_char) :: rest =>
      let res := send_events_full_step event_length st input rand_len rand_char
      if res.stopped then (res.state, [res])
      else
        let next := runFull event_length res.state rest
        (next.1, res :: next.2)

/-- Number of statistics lines among the observed iteration effects. -/
def countStats (outs : List StepResult) : Nat :=
  outs.countP (fun r => r.statLine.isSome)

/-- One iteration of the send loop of the minimal variant (src/main.c, first part):
on timestamp success build and send a catalog message; on failure the loop
body is simply skipped — there is no else branch, no message, no break. -/
def send_events_v1_step (input : ClockResult) (rand_val : Nat) : StepResult :=
  match input with
  | ClockResult.fail =>
      { state := initialFullState, sent := none, statLine := none, msg := none, stopped := false }
  | ClockResult.ok _ tv_nsec t =>
      { state := initialFullState,
        sent := some (catalog_event (timestamp_text_v1 t tv_nsec) rand_val),
        statLine := none, msg := none, stopped := false }

/-- One iteration of the send loop of part_000: on timestamp success build and send
a catalog message; on failure print the message and break. -/
def send_events_p0_step (input : ClockResult) (rand_val : Nat) : StepResult :=
  match input with
  | ClockResult.fail =>
      { state := initialFullState, sent := none, statLine := none,
        msg := some "It was not possible to generate a new timestamp.\n", stopped := true }
  | ClockResult.ok _ tv_nsec t =>
      { state := initialFullState,
        sent := some (catalog_event (timestamp_text_p0 t tv_nsec) rand_val),
        statLine := none, msg := none, stopped := false }

/-- Sample broken-down time 2024-01-01T00:00:00 local (tm_year = 124), used to
instantiate theorems with hypotheses at a concrete clock value. -/
def sample_tm : Tm :=
  { tm_sec := 0, tm_min := 0, tm_hour := 0, tm_mday := 1, tm_mon := 0, tm_year := 124 }

/-- Sample concrete 27-character timestamp text, as produced by the full
variant at sample_tm with tv_nsec = 0. -/
def sample_timestamp : String := timestamp_text_full sample_tm 0

/-! ### Helper lemmas -/

theorem strLen_mk (l : List Char) : (String.mk l).length = l.length := rfl

theorem strLen_data (s : String) : s.data.length = s.length := rfl

theorem natDecGo_length_le :
    ∀ (fuel n : Nat) (acc : List Char) (k : Nat), n < 10 ^ (k + 1) →
      (natDecGo fuel n acc).length ≤ (k + 1) + acc.length := by
  intro fuel
  induction fuel with
  | zero => intro n acc k _; simp [natDecGo]
  | succ f ih =>
      intro n acc k hk
      by_cases h10 : n < 10
      · simp only [natDecGo, if_pos h10, List.length_cons]
        omega
      · simp only [natDecGo, if_neg h10]
        match k with
        | 0 => exact absurd hk (by omega)
        | k' + 1 =>
            have hdiv : n / 10 < 10 ^ (k' + 1) := by
              apply (Nat.div_lt_iff_lt_mul (by omega : 0 < 10)).mpr
              calc n < 10 ^ (k' + 2) := hk
                _ = 10 ^ (k' + 1) * 10 := by ring
            have := ih (n / 10) (Char.ofNat (48 + n % 10) :: acc) k' hdiv
            simp only [List.length_cons] at this
            omega

theorem natDec_length_le {n k : Nat} (h : n < 10 ^ (k + 1)) : (natDec n).length ≤ k + 1 := by
  have := natDecGo_length_le (n + 1) n [] k h
  simpa [natDec, strLen_mk] using this

theorem padLeftWith_length (c : Char) (w : Nat) (s : String) :
    (padLeftWith c w s).length = (w - s.length) + s.length := by
  simp [padLeftWith, String.length_append, strLen_mk]

theorem padLeftWith_length_of_le {c : Char} {w : Nat} {s : String} (h : s.length ≤ w) :
    (padLeftWith c w s).length = w := by
  rw [padLeftWith_length]; omega

theorem snprintf_cap_of_lt {size : Nat} {s : String} (h : s.length + 1 ≤ size) :
    snprintf_cap size s = s := by
  unfold snprintf_cap
  rw [List.take_of_length_le (by rw [strLen_data]; omega)]

theorem snprintf_cap_length_le (size : Nat) (s : String) :
    (snprintf_cap size s).length ≤ size - 1 := by
  unfold snprintf_cap
  rw [strLen_mk, List.length_take]
  omega

theorem timestamp_text_core_of_fits (mf : Nat → String) (t : Tm) (tv_nsec : Nat)
    (h20 : (strftime_FTT t).length = 20) (hmf : (mf (tv_nsec / 1000)).length ≤ 7) :
    timestamp_text_core mf t tv_nsec = strftime_FTT t ++ mf (tv_nsec / 1000) := by
  unfold timestamp_text_core strftime_buffer
  rw [if_pos (by rw [h20]; decide)]
  show strftime_FTT t ++
      snprintf_cap (DATETIME_LENGTH - (strftime_FTT t).length) (mf (tv_nsec / 1000)) = _
  have hsz : DATETIME_LENGTH - (strftime_FTT t).length = 8 := by
    rw [h20]; decide
  rw [hsz, snprintf_cap_of_lt (by omega)]

theorem timestamp_text_core_length_le (mf : Nat → String) (t : Tm) (tv_nsec : Nat) :
    (timestamp_text_core mf t tv_nsec).length ≤ 27 := by
  unfold timestamp_text_core strftime_buffer
  by_cases h : (strftime_FTT t).length < DATETIME_LENGTH
  · rw [if_pos h]
    simp only [String.length_append]
    have := snprintf_cap_length_le (DATETIME_LENGTH - (strftime_FTT t).length)
      (mf (tv_nsec / 1000))
    have h28 : DATETIME_LENGTH = 28 := rfl
    omega
  · rw [if_neg h]
    simp only [String.length_append]
    have := snprintf_cap_length_le (DATETIME_LENGTH - 0) (mf (tv_nsec / 1000))
    have h28 : DATETIME_LENGTH = 28 := rfl
    simp only [String.length_empty]
    omega

theorem micros_field_full_length {m : Nat} (h : m < 1000000) :
    (micros_field_full m).length = 7 := by
  unfold micros_field_full
  rw [String.length_append, padLeftWith_length_of_le (natDec_length_le (by omega : m < 10 ^ (5 + 1)))]
  decide

theorem micros_field_v1_length {m : Nat} (h : m < 1000000) :
    (micros_field_v1 m).length = 7 := by
  unfold micros_field_v1
  rw [String.length_append, padLeftWith_length_of_le (natDec_length_le (by omega : m < 10 ^ (5 + 1)))]
  decide

theorem micros_field_p0_length_le {m : Nat} (h : m < 1000000) :
    (micros_field_p0 m).length ≤ 7 := by
  unfold micros_field_p0
  rw [String.length_append]
  have := natDec_length_le (by omega : m < 10 ^ (5 + 1))
  have hz : ("Z" : String).length = 1 := rfl
  omega

theorem syslogHeader_length {ts : String} (h : ts.length = 27) :
    (syslogHeader ts).length = 62 := by
  unfold syslogHeader
  rw [String.length_append, String.length_append, h]
  decide

theorem send_events_full_step_fail (event_length : Int) (st : FullState) (rand_len rand_char : Nat) :
    send_events_full_step event_length st ClockResult.fail rand_len rand_char =
      { state := st, sent := none, statLine := none,
        msg := some "It was not possible to generate a new timestamp.\n",
        stopped := true } := rfl

theorem send_events_full_step_ok (event_length : Int) (st : FullState) (tv_sec : Int)
    (tv_nsec : Nat) (t : Tm) (rand_len rand_char : Nat) :
    send_events_full_step event_length st (ClockResult.ok tv_sec tv_nsec t) rand_len rand_char =
      (let sc := boundary_crossed st.last_call_second t
       let n := if sc then st.num_second_changes + 1 else st.num_second_changes
       let e := if decide (0 ≤ n) then st.num_events_sent + 1 else st.num_events_sent
       { state := { last_call_second := (t.tm_sec : Int), num_second_changes := n,
                    num_events_sent := e },
         sent := if decide (0 ≤ n)
                 then some (generate_event (timestamp_text_full t tv_nsec)
                              event_length rand_len rand_char)
                 else none,
         statLine := if sc && decide (1 ≤ n) && decide (n % STATISTICS_INTERVAL = 0)
                     then some (statLineFull n e) else none,
         msg := none, stopped := false }) := rfl


theorem step_stat_toNat (event_length : Int) (st : FullState) (input : ClockResult)
    (rand_len rand_char : Nat) :
    (send_events_full_step event_length st input rand_len rand_char).state.num_second_changes.toNat
      = st.num_second_changes.toNat +
        (if (send_events_full_step event_length st input rand_len rand_char).statLine.isSome
         then 1 else 0) := by
  cases input with
  | fail => rw [send_events_full_step_fail]; simp
  | ok tv_sec tv_nsec t =>
      rw [send_events_full_step_ok]
      cases hsc : boundary_crossed st.last_call_second t with
      | false => simp only [Bool.false_and, Bool.false_eq_true, if_false]; simp
      | true =>
          simp only [Bool.true_and, if_pos trivial]
          have hmod : (st.num_second_changes + 1) % STATISTICS_INTERVAL = 0 := Int.emod_one _
          by_cases h1 : (1 : Int) ≤ st.num_second_changes + 1
          · simp [hmod, h1]
            omega
          · simp [hmod, h1]
            omega



theorem step_ok_n (event_length : Int) (st : FullState) (tv_sec : Int) (tv_nsec : Nat)
    (t : Tm) (rand_len rand_char : Nat) :
    (send_events_full_step event_length st (ClockResult.ok tv_sec tv_nsec t)
        rand_len rand_char).state.num_second_changes
      = if boundary_crossed st.last_call_second t then st.num_second_changes + 1
        else st.num_second_changes := by
  rw [send_events_full_step_ok]

theorem step_ok_e (event_length : Int) (st : FullState) (tv_sec : Int) (tv_nsec : Nat)
    (t : Tm) (rand_len rand_char : Nat) :
    (send_events_full_step event_length st (ClockResult.ok tv_sec tv_nsec t)
        rand_len rand_char).state.num_events_sent
      = if 0 ≤ (send_events_full_step event_length st (ClockResult.ok tv_sec tv_nsec t)
            rand_len rand_char).state.num_second_changes
        then st.num_events_sent + 1 else st.num_events_sent := by
  rw [step_ok_n, send_events_full_step_ok]
  all_goals cases boundary_crossed st.last_call_second t <;> simp

theorem step_ok_sent (event_length : Int) (st : FullState) (tv_sec : Int) (tv_nsec : Nat)
    (t : Tm) (rand_len rand_char : Nat) :
    (send_events_full_step event_length st (ClockResult.ok tv_sec tv_nsec t)
        rand_len rand_char).sent
      = if 0 ≤ (send_events_full_step event_length st (ClockResult.ok tv_sec tv_nsec t)
            rand_len rand_char).state.num_second_changes
        then some (generate_event (timestamp_text_full t tv_nsec) event_length
                     rand_len rand_char)
        else none := by
  rw [step_ok_n, send_events_full_step_ok]
  all_goals cases boundary_crossed st.last_call_second t <;> simp

theorem step_ok_stat (event_length : Int) (st : FullState) (tv_sec : Int) (tv_nsec : Nat)
    (t : Tm) (rand_len rand_char : Nat) :
    (send_events_full_step event_length st (ClockResult.ok tv_sec tv_nsec t)
        rand_len rand_char).statLine
      = (if boundary_crossed st.last_call_second t
            && decide (1 ≤ (send_events_full_step event_length st
                  (ClockResult.ok tv_sec tv_nsec t) rand_len rand_char).state.num_second_changes)
            && decide ((send_events_full_step event_length st (ClockResult.ok tv_sec tv_nsec t)
                  rand_len rand_char).state.num_second_changes % STATISTICS_INTERVAL = 0)
         then some (statLineFull
                (send_events_full_step event_length st (ClockResult.ok tv_sec tv_nsec t)
                  rand_len rand_char).state.num_second_changes
                (send_events_full_step event_length st (ClockResult.ok tv_sec tv_nsec t)
                  rand_len rand_char).state.num_events_sent)
         else none) := by
  rw [step_ok_n, step_ok_e, step_ok_n, send_events_full_step_ok]
  all_goals cases boundary_crossed st.last_call_second t <;> simp

theorem step_ok_not_stopped (event_length : Int) (st : FullState) (tv_sec : Int) (tv_nsec : Nat)
    (t : Tm) (rand_len rand_char : Nat) :
    (send_events_full_step event_length st (ClockResult.ok tv_sec tv_nsec t)
        rand_len rand_char).stopped = false := by
  rw [send_events_full_step_ok]

theorem step_mono (event_length : Int) (st : FullState) (input : ClockResult)
    (rand_len rand_char : Nat) :
    st.num_second_changes ≤
      (send_events_full_step event_length st input rand_len rand_char).state.num_second_changes ∧
    st.num_events_sent ≤
      (send_events_full_step event_length st input rand_len rand_char).state.num_events_sent := by
  cases input with
  | fail => rw [send_events_full_step_fail]; exact ⟨le_rfl, le_rfl⟩
  | ok tv_sec tv_nsec t =>
      rw [step_ok_e, step_ok_n]
      constructor <;> split <;> omega

theorem step_no_send_of_n_neg (event_length : Int) (st : FullState) (input : ClockResult)
    (rand_len rand_char : Nat)
    (h : (send_events_full_step event_length st input rand_len rand_char).state.num_second_changes
          < 0) :
    (send_events_full_step event_length st input rand_len rand_char).sent = none ∧
    (send_events_full_step event_length st input rand_len rand_char).state.num_events_sent
      = st.num_events_sent := by
  cases input with
  | fail => rw [send_events_full_step_fail] at h ⊢; exact ⟨rfl, rfl⟩
  | ok tv_sec tv_nsec t =>
      rw [step_ok_sent, step_ok_e]
      rw [if_neg (by omega), if_neg (by omega)]
      exact ⟨rfl, rfl⟩

theorem runFull_nil (event_length : Int) (st : FullState) :
    runFull event_length st [] = (st, []) := rfl

theorem runFull_cons (event_length : Int) (st : FullState) (input : ClockResult)
    (rand_len rand_char : Nat) (rest : List (ClockResult × Nat × Nat)) :
    runFull event_length st ((input, rand_len, rand_char) :: rest) =
      (let res := send_events_full_step event_length st input rand_len rand_char
       if res.stopped then (res.state, [res])
       else ((runFull event_length res.state rest).1,
             res :: (runFull event_length res.state rest).2)) := rfl

theorem runFull_mono (event_length : Int) :
    ∀ (trace : List (ClockResult × Nat × Nat)) (st : FullState),
      st.num_second_changes ≤ (runFull event_length st trace).1.num_second_changes ∧
      st.num_events_sent ≤ (runFull event_length st trace).1.num_events_sent := by
  intro trace
  induction trace with
  | nil => intro st; exact ⟨le_rfl, le_rfl⟩
  | cons head rest ih =>
      intro st
      obtain ⟨input, rand_len, rand_char⟩ := head
      rw [runFull_cons]
      by_cases hs : (send_events_full_step event_length st input rand_len rand_char).stopped
      · simp only [hs, if_true]
        exact step_mono event_length st input rand_len rand_char
      · simp only [hs, Bool.false_eq_true, if_false]
        have h1 := step_mono event_length st input rand_len rand_char
        have h2 := ih (send_events_full_step event_length st input rand_len rand_char).state
        exact ⟨le_trans h1.1 h2.1, le_trans h1.2 h2.2⟩

theorem runFull_countStats (event_length : Int) :
    ∀ (trace : List (ClockResult × Nat × Nat)) (st : FullState),
      countStats (runFull event_length st trace).2 + st.num_second_changes.toNat =
        (runFull event_length st trace).1.num_second_changes.toNat := by
  intro trace
  induction trace with
  | nil => intro st; simp [runFull_nil, countStats]
  | cons head rest ih =>
      intro st
      obtain ⟨input, rand_len, rand_char⟩ := head
      rw [runFull_cons]
      have hst := step_stat_toNat event_length st input rand_len rand_char
      by_cases hs : (send_events_full_step event_length st input rand_len rand_char).stopped
      · simp only [hs, if_true, countStats, List.countP_cons, List.countP_nil]
        by_cases hp : (send_events_full_step event_length st input rand_len rand_char).statLine.isSome
        · simp only [hp, if_true] at hst ⊢; omega
        · simp only [hp, Bool.false_eq_true, if_false] at hst ⊢; omega
      · simp only [hs, Bool.false_eq_true, if_false, countStats, List.countP_cons]
        have h2 := ih (send_events_full_step event_length st input rand_len rand_char).state
        simp only [countStats] at h2
        by_cases hp : (send_events_full_step event_length st input rand_len rand_char).statLine.isSome
        · simp only [hp, if_true] at hst ⊢; omega
        · simp only [hp, Bool.false_eq_true, if_false] at hst ⊢; omega

theorem runFull_events_of_final_neg (event_length : Int) :
    ∀ (trace : List (ClockResult × Nat × Nat)) (st : FullState),
      -1 ≤ st.num_second_changes →
      (runFull event_length st trace).1.num_second_changes = -1 →
      (runFull event_length st trace).1.num_events_sent = st.num_events_sent := by
  intro trace
  induction trace with
  | nil => intro st _ _; rfl
  | cons head rest ih =>
      intro st hge hfin
      obtain ⟨input, rand_len, rand_char⟩ := head
      rw [runFull_cons] at hfin ⊢
      by_cases hs : (send_events_full_step event_length st input rand_len rand_char).stopped
      · simp only [hs, if_true] at hfin ⊢
        exact (step_no_send_of_n_neg event_length st input rand_len rand_char (by omega)).2
      · simp only [hs, Bool.false_eq_true, if_false] at hfin ⊢
        have hmono := (runFull_mono event_length rest
          (send_events_full_step event_length st input rand_len rand_char).state).1
        have hsm := (step_mono event_length st input rand_len rand_char).1
        have hres : (send_events_full_step event_length st input
            rand_len rand_char).state.num_second_changes = -1 := by omega
        have h2 := ih (send_events_full_step event_length st input rand_len rand_char).state
          (by omega) hfin
        rw [h2,
          (step_no_send_of_n_neg event_length st input rand_len rand_char (by omega)).2]

theorem runTimestampState_eq :
    ∀ (calls : List ClockResult) (st : Int),
      runTimestampState st calls =
        (match lastOkSec calls with
         | none => st
         | some s => (s : Int)) := by
  intro calls
  induction calls with
  | nil => intro st; rfl
  | cons c rest ih =>
      intro st
      show runTimestampState (timestamp_rfc3339_step st c).2 rest = _
      rw [ih]
      cases hrest : lastOkSec rest with
      | some s => simp [lastOkSec, hrest]
      | none =>
          cases c with
          | fail => simp [lastOkSec, hrest, timestamp_rfc3339_step]
          | ok tv_sec tv_nsec t => simp [lastOkSec, hrest, timestamp_rfc3339_step]

theorem generate_event_fixed (a_timestamp : String) (L : Nat) (hL : 64 ≤ L)
    (rand_len rand_char : Nat) :
    generate_event a_timestamp (L : Int) rand_len rand_char =
      syslogHeader a_timestamp ++
        (String.mk (List.replicate (L - (SYSLOG_HEADER_LENGTH + 1))
            (Char.ofNat (65 + rand_char % 25))) ++ "\n") := by
  have h1 : ¬ ((L : Int) = -1) := by omega
  have h2 : ¬ (L = 0) := by omega
  simp [generate_event, generate_event_body, h1, h2, Int.toNat_natCast]

theorem generate_event_random (a_timestamp : String) (rand_len rand_char : Nat) :
    generate_event a_timestamp (-1) rand_len rand_char =
      syslogHeader a_timestamp ++
        (String.mk (List.replicate
            (RANDOM_EVENT_MIN_LENGTH +
              rand_len % (RANDOM_EVENT_MAX_LENGTH - RANDOM_EVENT_MIN_LENGTH + 1)
              - (SYSLOG_HEADER_LENGTH + 1))
            (Char.ofNat (65 + rand_char % 25))) ++ "\n") := by
  have h2 : RANDOM_EVENT_MIN_LENGTH +
      rand_len % (RANDOM_EVENT_MAX_LENGTH - RANDOM_EVENT_MIN_LENGTH + 1) ≠ 0 := by
    unfold RANDOM_EVENT_MIN_LENGTH RANDOM_EVENT_MAX_LENGTH
    omega
  simp [generate_event, generate_event_body]

set_option maxRecDepth 4000 in
theorem catalog_entry_length_le :
    ∀ i : Nat, i < 8 → (events_catalog.getD i "").length ≤ 160 := by decide

/-- C1: for every event length L accepted by validation
(min_event_length ≤ L ≤ max_event_length) and every RNG draw, the
length-driven message of generate_event is the 62-byte header, a body of
exactly L - 62 - 1 bytes, and one trailing newline, with total byte length
exactly L. -/
theorem C1_length_driven_exact (L : Nat) (a_timestamp : String)
    (hts : a_timestamp.length = 27)
    (hmin : min_event_length ≤ L) (hmax : L ≤ max_event_length)
    (rand_len rand_char : Nat) :
    (syslogHeader a_timestamp).length = SYSLOG_HEADER_LENGTH ∧
    (∃ body : String,
        generate_event a_timestamp (L : Int) rand_len rand_char =
          syslogHeader a_timestamp ++ body ++ "\n" ∧
        body.length = L - SYSLOG_HEADER_LENGTH - 1) ∧
    (generate_event a_timestamp (L : Int) rand_len rand_char).length = L := by
  have hm : min_event_length = 64 := rfl
  have hx : max_event_length = 1024 := rfl
  have hL : 64 ≤ L := by omega
  have hhdr := syslogHeader_length hts
  have heq := generate_event_fixed a_timestamp L hL rand_len rand_char
  refine ⟨hhdr, ⟨String.mk (List.replicate (L - (SYSLOG_HEADER_LENGTH + 1))
      (Char.ofNat (65 + rand_char % 25))), ?_, ?_⟩, ?_⟩
  · rw [heq, String.append_assoc]
  · rw [strLen_mk, List.length_replicate]
    have : SYSLOG_HEADER_LENGTH = 62 := rfl
    omega
  · rw [heq]
    rw [String.length_append, String.length_append, hhdr, strLen_mk, List.length_replicate]
    have h62 : SYSLOG_HEADER_LENGTH = 62 := rfl
    have hnl : ("\n" : String).length = 1 := rfl
    omega

theorem C1_length_driven_exact_witness :
    sample_timestamp.length = 27 ∧ min_event_length ≤ 120 ∧ 120 ≤ max_event_length ∧
    (generate_event sample_timestamp ((120 : Nat) : Int) 0 0).length = 120 :=
  ⟨by decide, by decide, by decide,
   (C1_length_driven_exact 120 sample_timestamp (by decide) (by decide) (by decide) 0 0).2.2⟩

/-- C7: the minimum legal event-length value header_length + 2 = 64 is
accepted by the -l validation of process_argument_list and synthesizes a body
of exactly one byte plus a newline, while header_length + 1 = 63 is rejected
(the LengthTooSmall configuration error: the option handler returns false and
main exits before any connection or send loop). -/
theorem C7_boundary_length (a_timestamp : String) (hts : a_timestamp.length = 27)
    (rand_len rand_char : Nat) :
    min_event_length = SYSLOG_HEADER_LENGTH + 2 ∧
    process_length_option ((SYSLOG_HEADER_LENGTH : Int) + 2) =
      some ((SYSLOG_HEADER_LENGTH : Int) + 2) ∧
    process_length_option ((SYSLOG_HEADER_LENGTH : Int) + 1) = none ∧
    (∃ body : String,
        generate_event a_timestamp ((SYSLOG_HEADER_LENGTH : Int) + 2) rand_len rand_char =
          syslogHeader a_timestamp ++ body ++ "\n" ∧ body.length = 1) ∧
    (generate_event a_timestamp ((SYSLOG_HEADER_LENGTH : Int) + 2) rand_len rand_char).length
      = SYSLOG_HEADER_LENGTH + 2 := by
  have hcast : ((SYSLOG_HEADER_LENGTH : Int) + 2) = ((64 : Nat) : Int) := by decide
  have hhdr := syslogHeader_length hts
  have heq := generate_event_fixed a_timestamp 64 (by omega) rand_len rand_char
  refine ⟨rfl, by decide, by decide, ⟨String.mk (List.replicate (64 - (SYSLOG_HEADER_LENGTH + 1))
      (Char.ofNat (65 + rand_char % 25))), ?_, ?_⟩, ?_⟩
  · rw [hcast, heq, String.append_assoc]
  · rw [strLen_mk, List.length_replicate]
    decide
  · rw [hcast, heq]
    rw [String.length_append, String.length_append, hhdr, strLen_mk, List.length_replicate]
    decide

theorem C7_boundary_length_witness :
    sample_timestamp.length = 27 ∧
    process_length_option ((SYSLOG_HEADER_LENGTH : Int) + 1) = none ∧
    (generate_event sample_timestamp ((SYSLOG_HEADER_LENGTH : Int) + 2) 0 0).length
      = SYSLOG_HEADER_LENGTH + 2 :=
  ⟨by decide, (C7_boundary_length sample_timestamp (by decide) 0 0).2.2.1,
   (C7_boundary_length sample_timestamp (by decide) 0 0).2.2.2.2⟩

/-- C9: with no explicit length (event_length = -1), generate_event_body picks
the total length RANDOM_EVENT_MIN_LENGTH + rand % 126, which always lies in
[100, 225] and attains every value of that range; the body is one repeated
character with code 65 + rand % 25 (an uppercase ASCII letter in the A-Z
range), and header + body + newline equals the chosen total length exactly. -/
theorem C9_random_in_range (a_timestamp : String) (hts : a_timestamp.length = 27)
    (rand_len rand_char : Nat) :
    RANDOM_EVENT_MIN_LENGTH ≤ RANDOM_EVENT_MIN_LENGTH +
        rand_len % (RANDOM_EVENT_MAX_LENGTH - RANDOM_EVENT_MIN_LENGTH + 1) ∧
    RANDOM_EVENT_MIN_LENGTH +
        rand_len % (RANDOM_EVENT_MAX_LENGTH - RANDOM_EVENT_MIN_LENGTH + 1)
      ≤ RANDOM_EVENT_MAX_LENGTH ∧
    (∀ target : Nat,
        RANDOM_EVENT_MIN_LENGTH ≤ target → target ≤ RANDOM_EVENT_MAX_LENGTH →
        ∃ r : Nat, RANDOM_EVENT_MIN_LENGTH +
            r % (RANDOM_EVENT_MAX_LENGTH - RANDOM_EVENT_MIN_LENGTH + 1) = target) ∧
    (generate_event a_timestamp (-1) rand_len rand_char).length =
      RANDOM_EVENT_MIN_LENGTH +
        rand_len % (RANDOM_EVENT_MAX_LENGTH - RANDOM_EVENT_MIN_LENGTH + 1) ∧
    (∃ code : Nat, 65 ≤ code ∧ code ≤ 90 ∧
        generate_event a_timestamp (-1) rand_len rand_char =
          syslogHeader a_timestamp ++
            String.mk (List.replicate
              (RANDOM_EVENT_MIN_LENGTH +
                rand_len % (RANDOM_EVENT_MAX_LENGTH - RANDOM_EVENT_MIN_LENGTH + 1)
                - (SYSLOG_HEADER_LENGTH + 1))
              (Char.ofNat code)) ++ "\n") := by
  have hmin : RANDOM_EVENT_MIN_LENGTH = 100 := rfl
  have hmax : RANDOM_EVENT_MAX_LENGTH = 225 := rfl
  have h62 : SYSLOG_HEADER_LENGTH = 62 := rfl
  have hmod : rand_len % (RANDOM_EVENT_MAX_LENGTH - RANDOM_EVENT_MIN_LENGTH + 1) < 126 := by
    rw [hmax, hmin]
    exact Nat.mod_lt _ (by omega)
  have hchar : rand_char % 25 < 25 := Nat.mod_lt _ (by omega)
  have hhdr := syslogHeader_length hts
  have heq := generate_event_random a_timestamp rand_len rand_char
  refine ⟨by omega, by omega, ?_, ?_, ⟨65 + rand_char % 25, by omega, by omega, ?_⟩⟩
  · intro target h1 h2
    refine ⟨target - RANDOM_EVENT_MIN_LENGTH, ?_⟩
    simp only [hmin, hmax] at h1 h2 ⊢
    rw [Nat.mod_eq_of_lt (by omega)]
    omega
  · rw [heq, String.length_append, String.length_append, hhdr, strLen_mk,
      List.length_replicate]
    have hnl : ("\n" : String).length = 1 := rfl
    omega
  · rw [heq, String.append_assoc]

theorem C9_random_in_range_witness :
    sample_timestamp.length = 27 ∧
    (generate_event sample_timestamp (-1) 7 3).length =
      RANDOM_EVENT_MIN_LENGTH +
        7 % (RANDOM_EVENT_MAX_LENGTH - RANDOM_EVENT_MIN_LENGTH + 1) :=
  ⟨by decide, (C9_random_in_range sample_timestamp (by decide) 7 3).2.2.2.1⟩

set_option maxRecDepth 8000 in
theorem C6_counterexample :
    (events_catalog.all (fun e =>
        generate_event sample_timestamp (-1) 0 0
          != syslogHeader sample_timestamp ++ e ++ "\n")) = true := by decide

/-- C6 amended: in the minimal catalog variant the message body is
byte-identical to the catalog entry at index rand % 8 (every one of the 8
entries is selectable), with no padding or truncation; in the full variant an
unset length (event_length = -1) does not select catalog mode but the
random-in-range mode, whose body is a repeated uppercase letter. -/
theorem C6_amended_catalog_vs_random (a_timestamp : String)
    (hts : a_timestamp.length = 27) (rand_val rand_len rand_char : Nat) :
    (∃ i : Nat, i < 8 ∧ i = rand_val % 8 ∧
        catalog_event a_timestamp rand_val =
          syslogHeader a_timestamp ++ events_catalog.getD i "" ++ "\n") ∧
    (∀ j : Nat, j < 8 → ∃ r : Nat, r % 8 = j) ∧
    (generate_event a_timestamp (-1) rand_len rand_char =
      syslogHeader a_timestamp ++
        String.mk (List.replicate
          (RANDOM_EVENT_MIN_LENGTH +
            rand_len % (RANDOM_EVENT_MAX_LENGTH - RANDOM_EVENT_MIN_LENGTH + 1)
            - (SYSLOG_HEADER_LENGTH + 1))
          (Char.ofNat (65 + rand_char % 25))) ++ "\n") := by
  have hhdr := syslogHeader_length hts
  have h8 : rand_val % 8 < 8 := Nat.mod_lt _ (by omega)
  have hlen := catalog_entry_length_le (rand_val % 8) h8
  refine ⟨⟨rand_val % 8, h8, rfl, ?_⟩, ?_, ?_⟩
  · unfold catalog_event
    apply snprintf_cap_of_lt
    rw [String.length_append, String.length_append, hhdr]
    have hnl : ("\n" : String).length = 1 := rfl
    have hsz : SYSLOG_MSG_MAXLENGTH = 1024 := rfl
    omega
  · intro j hj
    exact ⟨j, Nat.mod_eq_of_lt hj⟩
  · rw [generate_event_random, String.append_assoc]

set_option maxRecDepth 4000 in
theorem C6_amended_witness :
    sample_timestamp.length = 27 ∧
    (∃ i : Nat, i < 8 ∧ i = 3 % 8 ∧
        catalog_event sample_timestamp 3 =
          syslogHeader sample_timestamp ++ events_catalog.getD i "" ++ "\n") :=
  ⟨by decide, (C6_amended_catalog_vs_random sample_timestamp (by decide) 3 0 0).1⟩

theorem C2_counterexample :
    timestamp_text_full sample_tm 5000 ≠ spec_timestamp_text sample_tm 5000 ∧
    timestamp_text_v1 sample_tm 5000 = spec_timestamp_text sample_tm 5000 := by
  refine ⟨?_, by decide⟩
  decide

/-- C2 amended: on a successful call with a 20-character date-time prefix and
a valid tv_nsec, the minimal variant renders the microsecond value as exactly
6 zero-padded digits before the literal Z (exactly as the claim states), the
full variant renders it right-aligned in a 6-character space-padded field,
and part_000 renders it unpadded; in every variant, on every input, the
produced text plus its NUL terminator fits the 28-byte buffer of the
caller. -/
theorem C2_amended_timestamp_format (t : Tm) (tv_nsec : Nat)
    (h20 : (strftime_FTT t).length = 20) (hn : tv_nsec < 1000000000) :
    (timestamp_text_v1 t tv_nsec =
        strftime_FTT t ++ padLeftWith '0' 6 (natDec (tv_nsec / 1000)) ++ "Z" ∧
      (timestamp_text_v1 t tv_nsec).length + 1 = DATETIME_LENGTH) ∧
    (timestamp_text_full t tv_nsec =
        strftime_FTT t ++ padLeftWith ' ' 6 (natDec (tv_nsec / 1000)) ++ "Z" ∧
      (timestamp_text_full t tv_nsec).length + 1 = DATETIME_LENGTH) ∧
    (timestamp_text_p0 t tv_nsec =
        strftime_FTT t ++ natDec (tv_nsec / 1000) ++ "Z") ∧
    (∀ (t' : Tm) (n' : Nat),
        (timestamp_text_v1 t' n').length + 1 ≤ DATETIME_LENGTH ∧
        (timestamp_text_full t' n').length + 1 ≤ DATETIME_LENGTH ∧
        (timestamp_text_p0 t' n').length + 1 ≤ DATETIME_LENGTH) := by
  have hm : tv_nsec / 1000 < 1000000 := by omega
  have hv1 := micros_field_v1_length hm
  have hfl := micros_field_full_length hm
  have h28 : DATETIME_LENGTH = 28 := rfl
  refine ⟨⟨?_, ?_⟩, ⟨?_, ?_⟩, ?_, ?_⟩
  · rw [show timestamp_text_v1 t tv_nsec = timestamp_text_core micros_field_v1 t tv_nsec
        from rfl,
      timestamp_text_core_of_fits micros_field_v1 t tv_nsec h20 (by omega)]
    rw [show micros_field_v1 (tv_nsec / 1000)
        = padLeftWith '0' 6 (natDec (tv_nsec / 1000)) ++ "Z" from rfl,
      String.append_assoc]
  · rw [show timestamp_text_v1 t tv_nsec = timestamp_text_core micros_field_v1 t tv_nsec
        from rfl,
      timestamp_text_core_of_fits micros_field_v1 t tv_nsec h20 (by omega),
      String.length_append, h20, hv1]
    decide
  · rw [show timestamp_text_full t tv_nsec = timestamp_text_core micros_field_full t tv_nsec
        from rfl,
      timestamp_text_core_of_fits micros_field_full t tv_nsec h20 (by omega)]
    rw [show micros_field_full (tv_nsec / 1000)
        = padLeftWith ' ' 6 (natDec (tv_nsec / 1000)) ++ "Z" from rfl,
      String.append_assoc]
  · rw [show timestamp_text_full t tv_nsec = timestamp_text_core micros_field_full t tv_nsec
        from rfl,
      timestamp_text_core_of_fits micros_field_full t tv_nsec h20 (by omega),
      String.length_append, h20, hfl]
    decide
  · rw [show timestamp_text_p0 t tv_nsec = timestamp_text_core micros_field_p0 t tv_nsec
        from rfl,
      timestamp_text_core_of_fits micros_field_p0 t tv_nsec h20 (micros_field_p0_length_le hm)]
    rw [show micros_field_p0 (tv_nsec / 1000)
        = natDec (tv_nsec / 1000) ++ "Z" from rfl,
      String.append_assoc]
  · intro t' n'
    have h1 := timestamp_text_core_length_le micros_field_v1 t' n'
    have h2 := timestamp_text_core_length_le micros_field_full t' n'
    have h3 := timestamp_text_core_length_le micros_field_p0 t' n'
    rw [show timestamp_text_v1 t' n' = timestamp_text_core micros_field_v1 t' n' from rfl,
      show timestamp_text_full t' n' = timestamp_text_core micros_field_full t' n' from rfl,
      show timestamp_text_p0 t' n' = timestamp_text_core micros_field_p0 t' n' from rfl]
    refine ⟨by omega, by omega, by omega⟩

theorem C2_amended_witness :
    (strftime_FTT sample_tm).length = 20 ∧ (5000 : Nat) < 1000000000 ∧
    timestamp_text_full sample_tm 5000 =
      strftime_FTT sample_tm ++ padLeftWith ' ' 6 (natDec (5000 / 1000)) ++ "Z" ∧
    timestamp_text_p0 sample_tm 5000 =
      strftime_FTT sample_tm ++ natDec (5000 / 1000) ++ "Z" :=
  ⟨by decide, by decide,
   ((C2_amended_timestamp_format sample_tm 5000 (by decide) (by decide)).2.1).1,
   (C2_amended_timestamp_format sample_tm 5000 (by decide) (by decide)).2.2.1⟩

/-- C3: starting from the process-initial static last_call_second = -1, a
successful call of the timestamp generator of the full variant reports
second-changed = false when no earlier call succeeded (the very first
successful call, whatever the clock value), and otherwise reports true
exactly when the current tm_sec differs from the tm_sec observed at the most
recent earlier successful call. -/
theorem C3_first_call_and_boundary (pre : List ClockResult) (tv_sec : Int)
    (tv_nsec : Nat) (t : Tm) :
    (timestamp_rfc3339_step (runTimestampState (-1) pre)
        (ClockResult.ok tv_sec tv_nsec t)).1 =
      some (timestamp_text_full t tv_nsec,
        match lastOkSec pre with
        | none => false
        | some s => decide (¬ s = t.tm_sec)) := by
  rw [runTimestampState_eq]
  cases hpre : lastOkSec pre with
  | none => simp [timestamp_rfc3339_step]
  | some s =>
      simp only [timestamp_rfc3339_step, Option.some.injEq, Prod.mk.injEq, true_and]
      have hge : decide ((0 : Int) ≤ (s : Nat)) = true := by
        simp [Int.natCast_nonneg]
      rw [hge, Bool.and_true]
      simp [Nat.cast_inj]

/-- C10: the boundary detection of the timestamp generator of the full variant
stores only tm_sec, the seconds-within-minute field, so two consecutive
successful calls whose broken-down times share the same tm_sec — for example
wall-clock instants exactly 60 seconds apart — make the second call report
second-changed = false even though real second boundaries elapsed in
between. -/
theorem C10_minute_aliasing (last_call_second : Int) (tv1 tv2 : Int)
    (nsec1 nsec2 : Nat) (t1 t2 : Tm)
    (hsec : t1.tm_sec = t2.tm_sec) (hgap : tv2 = tv1 + 60) :
    (timestamp_rfc3339_step
        (timestamp_rfc3339_step last_call_second (ClockResult.ok tv1 nsec1 t1)).2
        (ClockResult.ok tv2 nsec2 t2)).1 =
      some (timestamp_text_full t2 nsec2, false) := by
  simp [timestamp_rfc3339_step, hsec]

theorem C10_minute_aliasing_witness :
    (Tm.mk 30 0 0 1 0 124).tm_sec = (Tm.mk 30 1 0 1 0 124).tm_sec ∧
    (60 : Int) = 0 + 60 ∧
    (timestamp_rfc3339_step
        (timestamp_rfc3339_step (-1) (ClockResult.ok 0 0 (Tm.mk 30 0 0 1 0 124))).2
        (ClockResult.ok 60 0 (Tm.mk 30 1 0 1 0 124))).1 =
      some (timestamp_text_full (Tm.mk 30 1 0 1 0 124) 0, false) :=
  ⟨rfl, by decide,
   C10_minute_aliasing (-1) 0 60 0 0 (Tm.mk 30 0 0 1 0 124) (Tm.mk 30 1 0 1 0 124)
     rfl (by decide)⟩

theorem C4_counterexample :
    (send_events_v1_step ClockResult.fail 0).stopped = false ∧
    (send_events_v1_step ClockResult.fail 0).msg = none := ⟨rfl, rfl⟩

/-- C4 amended: in the part_000 and full variants a timestamp-generation
failure prints the failure message and terminates the loop, and no successful
iteration terminates it (so it is the only in-program termination condition);
in the minimal main.c variant, however, a timestamp failure merely skips the
iteration body — the loop prints nothing and never terminates. -/
theorem C4_amended_termination :
    (∀ rand_val : Nat,
        (send_events_p0_step ClockResult.fail rand_val).stopped = true ∧
        (send_events_p0_step ClockResult.fail rand_val).msg =
          some "It was not possible to generate a new timestamp.\n") ∧
    (∀ (rand_val : Nat) (tv_sec : Int) (tv_nsec : Nat) (t : Tm),
        (send_events_p0_step (ClockResult.ok tv_sec tv_nsec t) rand_val).stopped = false) ∧
    (∀ (event_length : Int) (st : FullState) (rand_len rand_char : Nat),
        (send_events_full_step event_length st ClockResult.fail rand_len rand_char).stopped
          = true ∧
        (send_events_full_step event_length st ClockResult.fail rand_len rand_char).msg =
          some "It was not possible to generate a new timestamp.\n") ∧
    (∀ (event_length : Int) (st : FullState) (tv_sec : Int) (tv_nsec : Nat) (t : Tm)
        (rand_len rand_char : Nat),
        (send_events_full_step event_length st (ClockResult.ok tv_sec tv_nsec t)
          rand_len rand_char).stopped = false) ∧
    (∀ (input : ClockResult) (rand_val : Nat),
        (send_events_v1_step input rand_val).stopped = false ∧
        (send_events_v1_step input rand_val).msg = none) := by
  refine ⟨fun r => ⟨rfl, rfl⟩, fun r tv nsec t => rfl,
    fun el st rL rC => ⟨rfl, rfl⟩,
    fun el st tv nsec t rL rC => step_ok_not_stopped el st tv nsec t rL rC,
    fun input r => ?_⟩
  cases input <;> exact ⟨rfl, rfl⟩

theorem C5_counterexample :
    (send_events_full_step (-1) (FullState.mk 5 0 500)
        (ClockResult.ok 0 0 (Tm.mk 6 0 0 1 0 124)) 0 0).statLine =
      some (statLineFull 1 501) ∧
    statLineFull 1 501 ≠ statLineSpecFormat 1 1 501 := by
  refine ⟨by decide, by decide⟩

/-- C5 amended: a statistics line is printed exactly on the iterations where
the boundary was just crossed and the updated num_second_changes is a
positive multiple of STATISTICS_INTERVAL, and never on a failed-timestamp
iteration; the line is printf("%4ld sec. %10ld events sent, avg: %ld
events/sec\n") of num_second_changes, num_events_sent and their quotient — a
single leading number (followed by a literal "sec.") that equals both the
elapsed-seconds counter and the running count of reports printed so far,
since the interval is 1; the division is performed only on iterations where
num_second_changes is at least 1. -/
theorem C5_amended_statistics :
    (∀ (event_length : Int) (st : FullState) (tv_sec : Int) (tv_nsec : Nat) (t : Tm)
        (rand_len rand_char : Nat),
        (send_events_full_step event_length st (ClockResult.ok tv_sec tv_nsec t)
            rand_len rand_char).statLine =
          (if boundary_crossed st.last_call_second t
              && decide (1 ≤ (send_events_full_step event_length st
                    (ClockResult.ok tv_sec tv_nsec t) rand_len
                    rand_char).state.num_second_changes)
              && decide ((send_events_full_step event_length st
                    (ClockResult.ok tv_sec tv_nsec t) rand_len
                    rand_char).state.num_second_changes % STATISTICS_INTERVAL = 0)
           then some (statLineFull
                  (send_events_full_step event_length st (ClockResult.ok tv_sec tv_nsec t)
                    rand_len rand_char).state.num_second_changes
                  (send_events_full_step event_length st (ClockResult.ok tv_sec tv_nsec t)
                    rand_len rand_char).state.num_events_sent)
           else none)) ∧
    (∀ (event_length : Int) (st : FullState) (rand_len rand_char : Nat),
        (send_events_full_step event_length st ClockResult.fail rand_len rand_char).statLine
          = none) ∧
    (∀ (event_length : Int) (st : FullState) (input : ClockResult)
        (rand_len rand_char : Nat) (s : String),
        (send_events_full_step event_length st input rand_len rand_char).statLine = some s →
        1 ≤ (send_events_full_step event_length st input rand_len
              rand_char).state.num_second_changes) ∧
    (∀ (event_length : Int) (trace : List (ClockResult × Nat × Nat)),
        countStats (runFull event_length initialFullState trace).2 =
          (runFull event_length initialFullState trace).1.num_second_changes.toNat) := by
  refine ⟨fun el st tv nsec t rL rC => step_ok_stat el st tv nsec t rL rC,
    fun el st rL rC => rfl, ?_, ?_⟩
  · intro el st input rL rC s hsome
    cases input with
    | fail => rw [send_events_full_step_fail] at hsome; exact absurd hsome (by simp)
    | ok tv_sec tv_nsec t =>
        rw [step_ok_stat] at hsome
        split at hsome
        · next hcond =>
            simp only [Bool.and_eq_true, decide_eq_true_eq] at hcond
            exact hcond.1.2
        · exact absurd hsome (by simp)
  · intro el trace
    have h := runFull_countStats el trace initialFullState
    have h0 : initialFullState.num_second_changes = -1 := rfl
    omega

theorem C5_amended_statistics_witness :
    (send_events_full_step (-1) (FullState.mk 5 3 500)
        (ClockResult.ok 0 0 (Tm.mk 6 0 0 1 0 124)) 0 0).statLine =
      some (statLineFull 4 501) ∧
    1 ≤ (send_events_full_step (-1) (FullState.mk 5 3 500)
        (ClockResult.ok 0 0 (Tm.mk 6 0 0 1 0 124)) 0 0).state.num_second_changes :=
  ⟨by decide,
   C5_amended_statistics.2.2.1 (-1) (FullState.mk 5 3 500)
     (ClockResult.ok 0 0 (Tm.mk 6 0 0 1 0 124)) 0 0 (statLineFull 4 501) (by decide)⟩

/-- C8: in the send loop of the full variant, an iteration whose post-update
num_second_changes is still the -1 sentinel sends nothing and leaves
num_events_sent unchanged (so, starting from the initial state, events stay
at 0 while no boundary has been observed); every successful-timestamp
iteration whose num_second_changes is nonnegative sends exactly one event and
increments num_events_sent by exactly one; and both counters are monotone
across every iteration. -/
theorem C8_emission_gating :
    (∀ (event_length : Int) (st : FullState) (input : ClockResult)
        (rand_len rand_char : Nat),
        (send_events_full_step event_length st input rand_len
            rand_char).state.num_second_changes = -1 →
        (send_events_full_step event_length st input rand_len rand_char).sent = none ∧
        (send_events_full_step event_length st input rand_len
            rand_char).state.num_events_sent = st.num_events_sent) ∧
    (∀ (event_length : Int) (st : FullState) (tv_sec : Int) (tv_nsec : Nat) (t : Tm)
        (rand_len rand_char : Nat),
        0 ≤ (send_events_full_step event_length st (ClockResult.ok tv_sec tv_nsec t)
              rand_len rand_char).state.num_second_changes →
        (send_events_full_step event_length st (ClockResult.ok tv_sec tv_nsec t)
            rand_len rand_char).sent =
          some (generate_event (timestamp_text_full t tv_nsec) event_length
                  rand_len rand_char) ∧
        (send_events_full_step event_length st (ClockResult.ok tv_sec tv_nsec t)
            rand_len rand_char).state.num_events_sent = st.num_events_sent + 1) ∧
    (∀ (event_length : Int) (st : FullState) (input : ClockResult)
        (rand_len rand_char : Nat),
        st.num_second_changes ≤
          (send_events_full_step event_length st input rand_len
            rand_char).state.num_second_changes ∧
        st.num_events_sent ≤
          (send_events_full_step event_length st input rand_len
            rand_char).state.num_events_sent) ∧
    (∀ (event_length : Int) (trace : List (ClockResult × Nat × Nat)),
        (runFull event_length initialFullState trace).1.num_second_changes = -1 →
        (runFull event_length initialFullState trace).1.num_events_sent = 0) := by
  refine ⟨?_, ?_, fun el st input rL rC => step_mono el st input rL rC, ?_⟩
  · intro el st input rL rC h
    exact step_no_send_of_n_neg el st input rL rC (by omega)
  · intro el st tv nsec t rL rC h
    rw [step_ok_sent, step_ok_e, if_pos h, if_pos h]
    exact ⟨rfl, rfl⟩
  · intro el trace hfin
    have h := runFull_events_of_final_neg el trace initialFullState (by decide) hfin
    simpa using h

theorem C8_emission_gating_witness :
    0 ≤ (send_events_full_step 100 (FullState.mk 7 2 41)
          (ClockResult.ok 0 0 (Tm.mk 8 0 0 1 0 124)) 0 0).state.num_second_changes ∧
    (send_events_full_step 100 (FullState.mk 7 2 41)
        (ClockResult.ok 0 0 (Tm.mk 8 0 0 1 0 124)) 0 0).state.num_events_sent = 41 + 1 :=
  ⟨by decide,
   (C8_emission_gating.2.1 100 (FullState.mk 7 2 41) 0 0 (Tm.mk 8 0 0 1 0 124) 0 0
     (by decide)).2⟩
